import Mathlib

/-!
Shallow embedding of the LNHR DAC II telnet drivers
(`src/telnet.py`, synchronous `telnetlib` variant, and
`src/telnet3.py`, asynchronous `telnetlib3` variant).

Modelling conventions:
* Python `str` and `bytes` are both modelled as Lean `String`;
  `encode("ascii")` / `decode("ascii")` are identity on the ASCII
  strings exchanged with the device and are dropped.
* Network I/O and sleeps are recorded in an explicit event trace so
  that statements about ordering ("before any I/O", "before releasing
  the connection") can be made.
* The device is modelled by the `response` argument: the string the
  read call (`read_until` / `readuntil`) returns.  A read that times
  out after 3 s returns whatever partial buffer was accumulated, so a
  truncated or empty response is just a particular value of `response`.
* The connection attempt is modelled as succeeding (the
  `ConnectionError` branch of `_connect_to_DAC` is environment
  failure, not protocol logic, and no claim depends on it).
* Python exceptions become `Outcome` constructors: the `KeyError`
  raised on passing a command to the query entry point (or vice
  versa) is `invalidUsage`; the `KeyError` raised on a bad device
  reply is `handshakeFailure` and carries the request text and the
  raw reply exactly as the Python f-string does; evaluating
  `command[0]` on an empty string is `indexError`.
-/

/-- Driver connection state: the `self.connected` flag of `LNHRDAC`. -/
structure DACState where
  connected : Bool
deriving DecidableEq, Repr

/-- Observable effects of one driver call, in order of occurrence. -/
inductive Event where
  /-- opening the TCP/telnet connection (`telnetlib.Telnet(...)` /
  `telnetlib3.open_connection(...)`) -/
  | connectAttempt
  /-- writing `line` to the device (`self.telnet.write` / `self.writer.write`) -/
  | write (line : String)
  /-- reading from the device until the terminator `eom`
  (`read_until` / `readuntil`), 3 s timeout -/
  | readUntil (eom : String)
  /-- `sleep` / `asyncio.sleep` of `ms` milliseconds -/
  | sleepMs (ms : Nat)
  /-- closing the connection (`self.telnet.close()` / `self.writer.close()`) -/
  | close
deriving DecidableEq, Repr

/-- Result of one driver call: a raised Python exception or the return value. -/
inductive Outcome (α : Type) where
  /-- normal return, carrying the return value -/
  | success (a : α)
  /-- the `KeyError` raised when the wrong entry point is used for the
  string (query text to `send_command`, non-query text to
  `send_query` / `expect_query_answer`) -/
  | invalidUsage
  /-- the `KeyError` raised when the device reply fails the handshake;
  carries the request text and the raw reply, as the Python message does -/
  | handshakeFailure (request raw : String)
  /-- the `IndexError` raised by evaluating `text[0]` on an empty string -/
  | indexError
deriving DecidableEq, Repr

/-- Everything one driver call produces: outcome, final connection
state, and the trace of observable effects. -/
structure Res (α : Type) where
  out : Outcome α
  fin : DACState
  events : List Event
deriving DecidableEq, Repr

/-- Python `c in s` for a single character `c`: membership of the
character in the string. -/
def hasChar (s : String) (c : Char) : Bool :=
  s.toList.contains c

/-- Python whitespace as stripped by `str.strip()`. -/
def isPySpace (c : Char) : Bool :=
  c = ' ' || c = '\t' || c = '\n' || c = '\r' || c = '\x0b' || c = '\x0c'

/-- Python `str.strip()`: drop leading and trailing whitespace. -/
def pyStrip (s : String) : String :=
  String.mk ((((s.toList.dropWhile isPySpace).reverse.dropWhile isPySpace).reverse))

/-- Python `str.lower()` on ASCII text. -/
def pyLower (s : String) : String :=
  String.mk (s.toList.map Char.toLower)

/-- The normalisation `query.strip().lower()` performed by the async
driver before choosing the termination policy. -/
def pyNormalize (s : String) : String :=
  pyLower (pyStrip s)

/-- Python `sub in s` for a substring `sub`. -/
def strContainsSub (s sub : String) : Bool :=
  s.toList.tails.any (fun t => sub.toList.isPrefixOf t)

/-- `self._multi_line_output_commands` of `src/telnet3.py`. -/
def multiLineSet : List String :=
  ["?", "help?", "soft?", "hard?", "idn?", "health?", "ip?", "serial?", "contact?"]

/-- The termination marker `eom` chosen by the async driver from the
normalised query text: double carriage return for the multi-line
queries, CR LF otherwise. -/
def eomFor (qn : String) : String :=
  if multiLineSet.contains qn then "\r\r" else "\r\n"

namespace Telnet

/-- `LNHRDAC._connect_to_DAC` of `src/telnet.py`: if not connected,
open the telnet connection and set the flag.  Returns the new state
and the events performed. -/
def connect_to_DAC (st : DACState) : DACState × List Event :=
  if st.connected then (st, [])
  else (⟨true⟩, [Event.connectAttempt])

/-- `LNHRDAC._disconnect_from_DAC` of `src/telnet.py`: unless the
connection is held, close it, clear the flag and sleep 3 ms. -/
def disconnect_from_DAC (hold : Bool) (st : DACState) : DACState × List Event :=
  if hold then (st, [])
  else (⟨false⟩, [Event.close, Event.sleepMs 3])

/-- `LNHRDAC.send_command` of `src/telnet.py`.  `response` is what
`read_until(b"\n", 3)` returns. -/
def send_command (command : String) (hold : Bool) (response : String)
    (st : DACState) : Res Unit :=
  let c := connect_to_DAC st
  if hasChar command '?' then
    let d := disconnect_from_DAC hold c.1
    ⟨.invalidUsage, d.1, c.2 ++ d.2⟩
  else
    let io := [Event.write (command ++ "\r\n"), Event.readUntil "\n"]
    let ans := response
    match command.toList with
    | [] => ⟨.indexError, c.1, c.2 ++ io⟩
    | ch :: _ =>
      let delays :=
        if ch = 'c' ∨ ch = 'C' then
          [Event.sleepMs 200]
            ++ (if strContainsSub command "write" then [Event.sleepMs 300] else [])
        else []
      if ans = "0\r\n" then
        let d := disconnect_from_DAC hold c.1
        ⟨.success (), d.1, c.2 ++ io ++ delays ++ d.2⟩
      else
        let d := disconnect_from_DAC hold c.1
        ⟨.handshakeFailure command ans, d.1, c.2 ++ io ++ delays ++ d.2⟩

/-- `LNHRDAC.send_query` of `src/telnet.py`.  `response` is what
`read_until(b"\n", 3)` returns.  The answer is returned exactly as
read (decoded, not trimmed). -/
def send_query (query : String) (hold : Bool) (response : String)
    (st : DACState) : Res String :=
  let c := connect_to_DAC st
  if ¬ hasChar query '?' then
    let d := disconnect_from_DAC hold c.1
    ⟨.invalidUsage, d.1, c.2 ++ d.2⟩
  else
    let io := [Event.write (query ++ "\r\n"), Event.readUntil "\n"]
    let ans := response
    match query.toList with
    | [] => ⟨.indexError, c.1, c.2 ++ io⟩
    | ch :: _ =>
      let delays := if ch = 'c' ∨ ch = 'C' then [Event.sleepMs 200] else []
      if ¬ hasChar ans '?' then
        let d := disconnect_from_DAC hold c.1
        ⟨.success ans, d.1, c.2 ++ io ++ delays ++ d.2⟩
      else
        let d := disconnect_from_DAC hold c.1
        ⟨.handshakeFailure query ans, d.1, c.2 ++ io ++ delays ++ d.2⟩

/-- `LNHRDAC.expect_query_answer` of `src/telnet.py`.  `response` is
what `read_until(b"\r\n", 3)` returns.  On a plain mismatch the
method returns `False` without disconnecting. -/
def expect_query_answer (query answer : String) (hold : Bool)
    (response : String) (st : DACState) : Res Bool :=
  let c := connect_to_DAC st
  if ¬ hasChar query '?' then
    let d := disconnect_from_DAC hold c.1
    ⟨.invalidUsage, d.1, c.2 ++ d.2⟩
  else
    let io := [Event.write (query ++ "\r\n"), Event.readUntil "\r\n"]
    let ans := response
    match query.toList with
    | [] => ⟨.indexError, c.1, c.2 ++ io⟩
    | ch :: _ =>
      let delays := if ch = 'c' ∨ ch = 'C' then [Event.sleepMs 200] else []
      if hasChar ans '?' then
        let d := disconnect_from_DAC hold c.1
        ⟨.handshakeFailure query ans, d.1, c.2 ++ io ++ delays ++ d.2⟩
      else if ans = answer ++ "\r\n" then
        let d := disconnect_from_DAC hold c.1
        ⟨.success true, d.1, c.2 ++ io ++ delays ++ d.2⟩
      else
        ⟨.success false, c.1, c.2 ++ io ++ delays⟩

end Telnet

namespace Telnet3

/-- `LNHRDAC._connect_to_DAC` of `src/telnet3.py`: if not connected,
open the connection (3 s timeout via `asyncio.wait_for`) and set the
flag. -/
def connect_to_DAC (st : DACState) : DACState × List Event :=
  if st.connected then (st, [])
  else (⟨true⟩, [Event.connectAttempt])

/-- `LNHRDAC._disconnect_from_DAC` of `src/telnet3.py`: unless the
connection is held, close the writer, clear the flag and sleep 3 ms.
(The `self.writer is not None` guard always holds at the call sites,
which run `_connect_to_DAC` first.) -/
def disconnect_from_DAC (hold : Bool) (st : DACState) : DACState × List Event :=
  if hold then (st, [])
  else (⟨false⟩, [Event.close, Event.sleepMs 3])

/-- `LNHRDAC.send_command` of `src/telnet3.py`.  `response` is what
`readuntil("\r\n", 3)` returns.  The two `_disconnect_from_DAC` calls
on the acknowledgement branches are written without `await`: the
coroutine object is created but never run, so those branches perform
no disconnect (no state change, no close event). -/
def send_command (command : String) (hold : Bool) (response : String)
    (st : DACState) : Res Unit :=
  let c := connect_to_DAC st
  if hasChar command '?' then
    let d := disconnect_from_DAC hold c.1
    ⟨.invalidUsage, d.1, c.2 ++ d.2⟩
  else
    let io := [Event.write (command ++ "\r\n"), Event.readUntil "\r\n"]
    match command.toList with
    | [] => ⟨.indexError, c.1, c.2 ++ io⟩
    | ch :: _ =>
      let delays :=
        if ch = 'c' ∨ ch = 'C' then
          [Event.sleepMs 200]
            ++ (if strContainsSub command "write" then [Event.sleepMs 300] else [])
        else []
      if response = "0\r\n" then
        ⟨.success (), c.1, c.2 ++ io ++ delays⟩
      else
        ⟨.handshakeFailure command response, c.1, c.2 ++ io ++ delays⟩

/-- `LNHRDAC.send_query` of `src/telnet3.py`.  The query is rebound to
`query.strip().lower()` before the termination marker is chosen, so
the normalised text is also what gets written.  `response` is what
`readuntil(eom)` returns within the 3 s `asyncio.wait_for` window.
A response is accepted when it has no `?` or when the multi-line
marker was selected. -/
def send_query (query : String) (hold : Bool) (response : String)
    (st : DACState) : Res String :=
  let c := connect_to_DAC st
  if ¬ hasChar query '?' then
    let d := disconnect_from_DAC hold c.1
    ⟨.invalidUsage, d.1, c.2 ++ d.2⟩
  else
    let qn := pyNormalize query
    let eom := eomFor qn
    let io := [Event.write (qn ++ "\r\n"), Event.readUntil eom]
    let ans := response
    match qn.toList with
    | [] => ⟨.indexError, c.1, c.2 ++ io⟩
    | ch :: _ =>
      let delays := if ch = 'c' ∨ ch = 'C' then [Event.sleepMs 200] else []
      if ¬ hasChar ans '?' ∨ eom = "\r\r" then
        let d := disconnect_from_DAC hold c.1
        ⟨.success ans, d.1, c.2 ++ io ++ delays ++ d.2⟩
      else
        let d := disconnect_from_DAC hold c.1
        ⟨.handshakeFailure qn ans, d.1, c.2 ++ io ++ delays ++ d.2⟩

/-- `LNHRDAC.expect_query_answer` of `src/telnet3.py`.  Same
normalisation and framing as `send_query`; the error branch fires when
the response contains `?` or the multi-line marker was selected; on a
plain mismatch it returns `False` without disconnecting. -/
def expect_query_answer (query answer : String) (hold : Bool)
    (response : String) (st : DACState) : Res Bool :=
  let c := connect_to_DAC st
  if ¬ hasChar query '?' then
    let d := disconnect_from_DAC hold c.1
    ⟨.invalidUsage, d.1, c.2 ++ d.2⟩
  else
    let qn := pyNormalize query
    let eom := eomFor qn
    let io := [Event.write (qn ++ "\r\n"), Event.readUntil eom]
    let ans := response
    match qn.toList with
    | [] => ⟨.indexError, c.1, c.2 ++ io⟩
    | ch :: _ =>
      let delays := if ch = 'c' ∨ ch = 'C' then [Event.sleepMs 200] else []
      if hasChar ans '?' ∨ eom = "\r\r" then
        let d := disconnect_from_DAC hold c.1
        ⟨.handshakeFailure qn ans, d.1, c.2 ++ io ++ delays ++ d.2⟩
      else if ans = answer ++ "\r\n" then
        let d := disconnect_from_DAC hold c.1
        ⟨.success true, d.1, c.2 ++ io ++ delays ++ d.2⟩
      else
        ⟨.success false, c.1, c.2 ++ io ++ delays⟩

end Telnet3

/-- Network wire traffic: writes and reads (the connection attempt is
kept separate so that "before any I/O including the connection
attempt" and "before any write or read" can both be expressed). -/
def isWireEvent : Event → Bool
  | .write _ => true
  | .readUntil _ => true
  | _ => false

/-- `ms` milliseconds are slept before any `close` event in the trace
`l`: the trace splits around a `sleepMs ms` whose prefix has no
`close`. -/
def SleepBeforeClose (ms : Nat) (l : List Event) : Prop :=
  ∃ l₁ l₂, l = l₁ ++ Event.sleepMs ms :: l₂ ∧ Event.close ∉ l₁

section Helpers

lemma toList_mk (l : List Char) : (String.mk l).toList = l := rfl

lemma hasChar_iff {s : String} {c : Char} : hasChar s c = true ↔ c ∈ s.toList := by
  simp [hasChar, List.contains, List.elem_iff]

lemma toList_ne_nil_of_ne_empty {s : String} (h : s ≠ "") : s.toList ≠ [] := by
  intro hn
  apply h
  cases s with
  | mk d =>
    simp only [String.toList] at hn
    subst hn
    rfl

lemma mem_dropWhile_of_mem {p : Char → Bool} {a : Char} {l : List Char}
    (h : a ∈ l) (hpa : p a = false) : a ∈ l.dropWhile p := by
  induction l with
  | nil => cases h
  | cons b t ih =>
    rw [List.dropWhile_cons]
    by_cases hb : p b = true
    · simp only [hb, if_true]
      rcases List.mem_cons.mp h with rfl | ht
      · rw [hpa] at hb; cases hb
      · exact ih ht
    · simp only [hb, if_false]
      exact h

lemma qmark_mem_pyStrip {s : String} (h : '?' ∈ s.toList) :
    '?' ∈ (pyStrip s).toList := by
  have hq : isPySpace '?' = false := by decide
  unfold pyStrip
  rw [toList_mk, List.mem_reverse]
  refine mem_dropWhile_of_mem ?_ hq
  rw [List.mem_reverse]
  exact mem_dropWhile_of_mem h hq

lemma qmark_mem_pyLower {s : String} (h : '?' ∈ s.toList) :
    '?' ∈ (pyLower s).toList := by
  unfold pyLower
  rw [toList_mk]
  have hl : Char.toLower '?' = '?' := by decide
  exact hl ▸ List.mem_map_of_mem Char.toLower h

lemma hasChar_pyNormalize {s : String} (h : hasChar s '?' = true) :
    hasChar (pyNormalize s) '?' = true := by
  rw [hasChar_iff] at h ⊢
  exact qmark_mem_pyLower (qmark_mem_pyStrip h)

lemma pyNormalize_toList_cons {s : String} (h : hasChar s '?' = true) :
    ∃ ch t, (pyNormalize s).toList = ch :: t :=
  List.exists_cons_of_ne_nil
    (List.ne_nil_of_mem (hasChar_iff.mp (hasChar_pyNormalize h)))

lemma Telnet.connect_fst_sync (st : DACState) : (Telnet.connect_to_DAC st).1 = ⟨true⟩ := by
  cases st with
  | mk b => cases b <;> simp [Telnet.connect_to_DAC]

lemma Telnet3.connect_fst_async (st : DACState) : (Telnet3.connect_to_DAC st).1 = ⟨true⟩ := by
  cases st with
  | mk b => cases b <;> simp [Telnet3.connect_to_DAC]

end Helpers

/-! ## Claim C2 -/

/-- C2: for every command string accepted by `send_command` (it
contains no `?` and is non-empty), the call succeeds if and only if
the device response is exactly `0` followed by the line terminator;
any other response (including an empty one) fails with a handshake
failure carrying the command text and the raw reply.  Holds for both
the synchronous and the asynchronous driver. -/
theorem claim2_command_ack (cmd resp : String) (hold : Bool) (st : DACState)
    (hnq : hasChar cmd '?' = false) (hne : cmd ≠ "") :
    (((Telnet.send_command cmd hold resp st).out = .success ()) ↔ resp = "0\r\n") ∧
    (resp ≠ "0\r\n" →
      (Telnet.send_command cmd hold resp st).out = .handshakeFailure cmd resp) ∧
    (((Telnet3.send_command cmd hold resp st).out = .success ()) ↔ resp = "0\r\n") ∧
    (resp ≠ "0\r\n" →
      (Telnet3.send_command cmd hold resp st).out = .handshakeFailure cmd resp) := by
  obtain ⟨ch, t, hct⟩ := List.exists_cons_of_ne_nil (toList_ne_nil_of_ne_empty hne)
  have hsync : (((Telnet.send_command cmd hold resp st).out = .success ()) ↔
        resp = "0\r\n") ∧
      (resp ≠ "0\r\n" →
        (Telnet.send_command cmd hold resp st).out = .handshakeFailure cmd resp) := by
    unfold Telnet.send_command
    rw [hct]
    simp only [hnq, Bool.false_eq_true, if_false]
    by_cases hr : resp = "0\r\n" <;> simp [hr]
  have hasyn : (((Telnet3.send_command cmd hold resp st).out = .success ()) ↔
        resp = "0\r\n") ∧
      (resp ≠ "0\r\n" →
        (Telnet3.send_command cmd hold resp st).out = .handshakeFailure cmd resp) := by
    unfold Telnet3.send_command
    rw [hct]
    simp only [hnq, Bool.false_eq_true, if_false]
    by_cases hr : resp = "0\r\n" <;> simp [hr]
  exact ⟨hsync.1, hsync.2, hasyn.1, hasyn.2⟩

/-- Witness for C2 at `send_command("all off")` answered `0\r\n`. -/
theorem claim2_command_ack_witness :
    hasChar "all off" '?' = false ∧
    (((Telnet.send_command "all off" false "0\r\n" ⟨false⟩).out = .success ()) ↔
      ("0\r\n" : String) = "0\r\n") :=
  ⟨by decide,
   (claim2_command_ack "all off" "0\r\n" false ⟨false⟩ (by decide) (by decide)).1⟩

/-! ## Claim C1 -/

/-- C1 is false as stated, on two counts, exhibited at concrete
inputs: (a) for `send_command("all s?")` from a disconnected driver
the `InvalidUsage` error is raised only after the connection attempt,
so it is not detected before all network I/O; (b) the empty command
is not rejected with `InvalidUsage` at all: `send_command("")` writes
the bare terminator to the device and then dies with an `IndexError`
at `command[0]`. -/
theorem claim1_counterexample :
    ((Telnet.send_command "all s?" false "0\r\n" ⟨false⟩).out = .invalidUsage ∧
      Event.connectAttempt ∈ (Telnet.send_command "all s?" false "0\r\n" ⟨false⟩).events) ∧
    ((Telnet.send_command "" false "0\r\n" ⟨false⟩).out = .indexError ∧
      (Telnet.send_command "" false "0\r\n" ⟨false⟩).out ≠ .invalidUsage ∧
      Event.write "\r\n" ∈ (Telnet.send_command "" false "0\r\n" ⟨false⟩).events) := by
  decide

/-- C1 (amended): a command containing `?` passed to `send_command`,
and a query without `?` passed to `send_query` or
`expect_query_answer`, fail with `InvalidUsage`; the check happens
after the connection attempt (which is performed when the driver is
disconnected) but before any write or read.  An empty command string
is not rejected: `send_command` writes it (as a bare terminator line)
to the device and then fails with an `IndexError`.  Both drivers
behave alike. -/
theorem claim1_amended_validation (cmd q a resp : String) (hold : Bool)
    (st : DACState) (hc : hasChar cmd '?' = true) (hq : hasChar q '?' = false) :
    ((Telnet.send_command cmd hold resp st).out = .invalidUsage ∧
      (Telnet.send_command cmd hold resp st).events.all (fun e => !isWireEvent e) = true ∧
      (st.connected = false →
        Event.connectAttempt ∈ (Telnet.send_command cmd hold resp st).events)) ∧
    ((Telnet3.send_command cmd hold resp st).out = .invalidUsage ∧
      (Telnet3.send_command cmd hold resp st).events.all (fun e => !isWireEvent e) = true) ∧
    ((Telnet.send_query q hold resp st).out = .invalidUsage ∧
      (Telnet.send_query q hold resp st).events.all (fun e => !isWireEvent e) = true) ∧
    ((Telnet3.send_query q hold resp st).out = .invalidUsage ∧
      (Telnet3.send_query q hold resp st).events.all (fun e => !isWireEvent e) = true) ∧
    ((Telnet.expect_query_answer q a hold resp st).out = .invalidUsage ∧
      (Telnet.expect_query_answer q a hold resp st).events.all
        (fun e => !isWireEvent e) = true) ∧
    ((Telnet3.expect_query_answer q a hold resp st).out = .invalidUsage ∧
      (Telnet3.expect_query_answer q a hold resp st).events.all
        (fun e => !isWireEvent e) = true) ∧
    ((Telnet.send_command "" hold resp st).out = .indexError ∧
      Event.write ("" ++ "\r\n") ∈ (Telnet.send_command "" hold resp st).events) ∧
    ((Telnet3.send_command "" hold resp st).out = .indexError ∧
      Event.write ("" ++ "\r\n") ∈ (Telnet3.send_command "" hold resp st).events) := by
  have hempty : hasChar "" '?' = false := by decide
  have hnil : ("" : String).toList = [] := rfl
  obtain ⟨b⟩ := st
  refine ⟨?_, ?_, ?_, ?_, ?_, ?_, ?_, ?_⟩ <;>
    cases b <;> cases hold <;>
      simp [Telnet.send_command, Telnet3.send_command, Telnet.send_query,
        Telnet3.send_query, Telnet.expect_query_answer, Telnet3.expect_query_answer,
        Telnet.connect_to_DAC, Telnet3.connect_to_DAC, Telnet.disconnect_from_DAC,
        Telnet3.disconnect_from_DAC, hc, hq, hempty, hnil, isWireEvent]

/-- Witness for C1 (amended) at `send_command("all s?")` and
`send_query("all off")`. -/
theorem claim1_amended_validation_witness :
    hasChar "all s?" '?' = true ∧ hasChar "all off" '?' = false ∧
    (Telnet.send_command "all s?" false "0\r\n" ⟨false⟩).out = .invalidUsage :=
  ⟨by decide, by decide,
   (claim1_amended_validation "all s?" "all off" "ON" "0\r\n" false ⟨false⟩
      (by decide) (by decide)).1.1⟩

/-! ## Claim C3 -/

/-- C3 is false as stated at a concrete input: for the single-line
query `1 s?` answered `ON\r\n`, `send_query` returns the raw buffer
`ON\r\n` as the success payload, not the trimmed text `ON`. -/
theorem claim3_counterexample :
    (Telnet.send_query "1 s?" false "ON\r\n" ⟨false⟩).out = .success "ON\r\n" ∧
    pyStrip "ON\r\n" = "ON" ∧
    (Telnet.send_query "1 s?" false "ON\r\n" ⟨false⟩).out ≠ .success "ON" := by
  decide

/-- C3 (amended): for every query not in the multi-line set, a
response containing a bare `?` is classified as a handshake failure,
and a response without `?` is returned verbatim as read — including
the line terminator, not trimmed — as the success payload.  Holds for
the async driver (which carries the multi-line set) and for the sync
driver (where every query is single-line). -/
theorem claim3_amended_query_payload (q resp : String) (hold : Bool)
    (st : DACState) (hq : hasChar q '?' = true)
    (hnm : multiLineSet.contains (pyNormalize q) = false) :
    (hasChar resp '?' = true →
      (Telnet3.send_query q hold resp st).out = .handshakeFailure (pyNormalize q) resp ∧
      (Telnet.send_query q hold resp st).out = .handshakeFailure q resp) ∧
    (hasChar resp '?' = false →
      (Telnet3.send_query q hold resp st).out = .success resp ∧
      (Telnet.send_query q hold resp st).out = .success resp) := by
  obtain ⟨ch, t, hct⟩ := pyNormalize_toList_cons hq
  obtain ⟨ch₂, t₂, hct₂⟩ :=
    List.exists_cons_of_ne_nil (List.ne_nil_of_mem (hasChar_iff.mp hq))
  have heom : eomFor (pyNormalize q) = "\r\n" := by
    simp only [eomFor]
    rw [hnm]
    rfl
  constructor <;> intro hr
  · constructor
    · simp only [Telnet3.send_query, hq, heom]
      rw [hct]
      simp [hr]
    · unfold Telnet.send_query
      rw [hct₂]
      simp [hq, hr]
  · constructor
    · simp only [Telnet3.send_query, hq, heom]
      rw [hct]
      simp [hr]
    · unfold Telnet.send_query
      rw [hct₂]
      simp [hq, hr]

/-- Witness for C3 (amended) at `send_query("1 s?")` answered `OFF\r\n`. -/
theorem claim3_amended_query_payload_witness :
    hasChar "1 s?" '?' = true ∧
    (Telnet.send_query "1 s?" false "OFF\r\n" ⟨false⟩).out = .success "OFF\r\n" :=
  ⟨by decide,
   ((claim3_amended_query_payload "1 s?" "OFF\r\n" false ⟨false⟩ (by decide)
      (by decide)).2 (by decide)).2⟩

/-! ## Claim C4 -/

/-- C4 is false as stated at a concrete input: a read timeout during
`send_query("1 s?")` that leaves an empty buffer is returned as a
silent success with payload `""`, not reported as a handshake
failure. -/
theorem claim4_counterexample :
    (Telnet.send_query "1 s?" false "" ⟨false⟩).out = .success "" ∧
    (Telnet.send_query "1 s?" false "" ⟨false⟩).out ≠ .handshakeFailure "1 s?" "" := by
  decide

/-- C4 (amended): an empty buffer produced by the 3-second read
timeout is reported as a handshake failure by `send_command` (in both
drivers), but `send_query` returns it as a silent success with the
empty payload (in both drivers), and `expect_query_answer` returns
false for it. -/
theorem claim4_amended_timeout (cmd q a : String) (hold : Bool) (st : DACState)
    (hnq : hasChar cmd '?' = false) (hne : cmd ≠ "") (hq : hasChar q '?' = true) :
    (Telnet.send_command cmd hold "" st).out = .handshakeFailure cmd "" ∧
    (Telnet3.send_command cmd hold "" st).out = .handshakeFailure cmd "" ∧
    (Telnet.send_query q hold "" st).out = .success "" ∧
    (Telnet3.send_query q hold "" st).out = .success "" ∧
    (Telnet.expect_query_answer q a hold "" st).out = .success false := by
  obtain ⟨ch, t, hct⟩ := List.exists_cons_of_ne_nil (toList_ne_nil_of_ne_empty hne)
  obtain ⟨ch₂, t₂, hct₂⟩ :=
    List.exists_cons_of_ne_nil (List.ne_nil_of_mem (hasChar_iff.mp hq))
  obtain ⟨ch₃, t₃, hct₃⟩ := pyNormalize_toList_cons hq
  have hz : hasChar "" '?' = false := by decide
  have hnz : ("" : String) ≠ "0\r\n" := by decide
  have hea : ("" : String) ≠ a ++ "\r\n" := by
    intro h
    have h2 : ([] : List Char) = a.data ++ ['\r', '\n'] := congrArg String.data h
    simp at h2
  refine ⟨?_, ?_, ?_, ?_, ?_⟩
  · unfold Telnet.send_command
    rw [hct]
    simp [hnq, hnz]
  · unfold Telnet3.send_command
    rw [hct]
    simp [hnq, hnz]
  · unfold Telnet.send_query
    rw [hct₂]
    simp [hq, hz]
  · simp only [Telnet3.send_query, hq]
    rw [hct₃]
    simp [hz]
  · unfold Telnet.expect_query_answer
    rw [hct₂]
    simp [hq, hz, hea]

/-- Witness for C4 (amended) at `send_command("all off")` and
`send_query("all s?")` with an empty timeout buffer. -/
theorem claim4_amended_timeout_witness :
    hasChar "all s?" '?' = true ∧
    (Telnet.send_command "all off" false "" ⟨false⟩).out = .handshakeFailure "all off" "" ∧
    (Telnet.send_query "all s?" false "" ⟨false⟩).out = .success "" :=
  ⟨by decide,
   (claim4_amended_timeout "all off" "all s?" "OFF" false ⟨false⟩ (by decide)
      (by decide) (by decide)).1,
   (claim4_amended_timeout "all off" "all s?" "OFF" false ⟨false⟩ (by decide)
      (by decide) (by decide)).2.2.1⟩

/-! ## Claim C5 -/

/-- C5: for every query whose trimmed, lower-cased text is one of the
nine multi-line identifiers, the async driver reads with the
double-terminator framing `\r\r`; the framing is the pure function
`eomFor` of the normalised query text, fixed before the read; and the
payload is returned as a success whatever it contains — a `?` in it
is never classified as a handshake failure.  (Queries are strings
containing `?`; every member of the multi-line set contains `?`, so
the `hasChar` hypothesis is implied by the membership hypothesis.) -/
theorem claim5_multiline_framing (q resp : String) (hold : Bool) (st : DACState)
    (hq : hasChar q '?' = true)
    (hm : multiLineSet.contains (pyNormalize q) = true) :
    eomFor (pyNormalize q) = "\r\r" ∧
    Event.readUntil "\r\r" ∈ (Telnet3.send_query q hold resp st).events ∧
    (Telnet3.send_query q hold resp st).out = .success resp := by
  obtain ⟨ch, t, hct⟩ := pyNormalize_toList_cons hq
  have heom : eomFor (pyNormalize q) = "\r\r" := by
    simp only [eomFor]
    rw [hm]
    rfl
  refine ⟨heom, ?_, ?_⟩ <;>
    · simp only [Telnet3.send_query, hq, heom]
      rw [hct]
      simp

/-- Witness for C5 at `send_query("idn?")` with a payload containing `?`. -/
theorem claim5_multiline_framing_witness :
    hasChar "idn?" '?' = true ∧
    multiLineSet.contains (pyNormalize "idn?") = true ∧
    (Telnet3.send_query "idn?" false "LNHR DAC II?\r\r" ⟨false⟩).out =
      .success "LNHR DAC II?\r\r" :=
  ⟨by decide, by decide,
   (claim5_multiline_framing "idn?" "LNHR DAC II?\r\r" false ⟨false⟩ (by decide)
      (by decide)).2.2⟩

/-! ## Claim C10 -/

/-- C10: in the async driver, for every query whose normalised text is
in the multi-line set, `expect_query_answer` raises a handshake
failure whatever the device responds — the `eom == "\r\r"` disjunct
forces the error branch — so it never returns a boolean result. -/
theorem claim10_multiline_expect_raises (q a resp : String) (hold : Bool)
    (st : DACState) (hq : hasChar q '?' = true)
    (hm : multiLineSet.contains (pyNormalize q) = true) :
    (Telnet3.expect_query_answer q a hold resp st).out =
      .handshakeFailure (pyNormalize q) resp ∧
    ∀ b : Bool, (Telnet3.expect_query_answer q a hold resp st).out ≠ .success b := by
  obtain ⟨ch, t, hct⟩ := pyNormalize_toList_cons hq
  have heom : eomFor (pyNormalize q) = "\r\r" := by
    simp only [eomFor]
    rw [hm]
    rfl
  have hfail : (Telnet3.expect_query_answer q a hold resp st).out =
      .handshakeFailure (pyNormalize q) resp := by
    simp only [Telnet3.expect_query_answer, hq, heom]
    rw [hct]
    simp
  refine ⟨hfail, fun b => ?_⟩
  rw [hfail]
  simp

/-- Witness for C10 at `expect_query_answer("idn?", "LNHR DAC II")`
with a well-formed reply. -/
theorem claim10_multiline_expect_raises_witness :
    hasChar "idn?" '?' = true ∧
    multiLineSet.contains (pyNormalize "idn?") = true ∧
    (Telnet3.expect_query_answer "idn?" "LNHR DAC II" false "LNHR DAC II\r\r"
      ⟨false⟩).out = .handshakeFailure "idn?" "LNHR DAC II\r\r" :=
  ⟨by decide, by decide,
   (claim10_multiline_expect_raises "idn?" "LNHR DAC II" "LNHR DAC II\r\r" false
      ⟨false⟩ (by decide) (by decide)).1⟩

/-! ## Claim C6 -/

/-- C6 is false as stated at a concrete input: for
`send_query(" IDN? ")` the async driver writes the normalised text
`idn?` plus terminator to the device, not the original command text
as supplied by the caller. -/
theorem claim6_counterexample :
    Event.write ("idn?" ++ "\r\n") ∈
      (Telnet3.send_query " IDN? " false "x\r\r" ⟨false⟩).events ∧
    Event.write (" IDN? " ++ "\r\n") ∉
      (Telnet3.send_query " IDN? " false "x\r\r" ⟨false⟩).events ∧
    pyNormalize " IDN? " ≠ " IDN? " := by
  decide

/-- C6 (amended): the async driver's `send_query` and
`expect_query_answer` rebind the query to its normalised (trimmed,
lower-cased) form, use it to select the termination policy, and write
that normalised text plus terminator to the device; the original
spelling is not preserved on the wire.  The sync driver, which has no
normalisation, writes the original query text. -/
theorem claim6_amended_write_normalized (q a resp : String) (hold : Bool)
    (st : DACState) (hq : hasChar q '?' = true) :
    Event.write (pyNormalize q ++ "\r\n") ∈
      (Telnet3.send_query q hold resp st).events ∧
    Event.readUntil (eomFor (pyNormalize q)) ∈
      (Telnet3.send_query q hold resp st).events ∧
    Event.write (pyNormalize q ++ "\r\n") ∈
      (Telnet3.expect_query_answer q a hold resp st).events ∧
    Event.readUntil (eomFor (pyNormalize q)) ∈
      (Telnet3.expect_query_answer q a hold resp st).events ∧
    Event.write (q ++ "\r\n") ∈ (Telnet.send_query q hold resp st).events := by
  obtain ⟨ch, t, hct⟩ := pyNormalize_toList_cons hq
  obtain ⟨ch₂, t₂, hct₂⟩ :=
    List.exists_cons_of_ne_nil (List.ne_nil_of_mem (hasChar_iff.mp hq))
  refine ⟨?_, ?_, ?_, ?_, ?_⟩
  · simp only [Telnet3.send_query, hq]
    rw [hct]
    split
    · simp_all
    · split
      · simp_all
      · split <;> simp
  · simp only [Telnet3.send_query, hq]
    rw [hct]
    split
    · simp_all
    · split
      · simp_all
      · split <;> simp
  · simp only [Telnet3.expect_query_answer, hq]
    rw [hct]
    split
    · simp_all
    · split
      · simp_all
      · split
        · simp
        · split <;> simp
  · simp only [Telnet3.expect_query_answer, hq]
    rw [hct]
    split
    · simp_all
    · split
      · simp_all
      · split
        · simp
        · split <;> simp
  · simp only [Telnet.send_query, hq]
    rw [hct₂]
    split
    · simp_all
    · split
      · simp_all
      · split <;> simp

/-- Witness for C6 (amended) at `send_query(" IDN? ")`. -/
theorem claim6_amended_write_normalized_witness :
    hasChar " IDN? " '?' = true ∧
    Event.write (pyNormalize " IDN? " ++ "\r\n") ∈
      (Telnet3.send_query " IDN? " false "x\r\r" ⟨false⟩).events :=
  ⟨by decide,
   (claim6_amended_write_normalized " IDN? " "x" "x\r\r" false ⟨false⟩
      (by decide)).1⟩

/-! ## Claim C7 -/

/-- C7 is false as stated at a concrete input: for
`expect_query_answer("1 s?", "OFF")` answered ` OFF\r\n`, the trimmed
decoded payload equals the expected string `OFF`, yet the method
returns false — the comparison is `ans == answer + "\r\n"` on the
untrimmed buffer, not a comparison of trimmed payloads. -/
theorem claim7_counterexample :
    (Telnet.expect_query_answer "1 s?" "OFF" false " OFF\r\n" ⟨false⟩).out =
      .success false ∧
    pyStrip " OFF\r\n" = "OFF" := by
  decide

/-- C7 (amended): `expect_query_answer` returns true iff the decoded
payload equals the expected string followed by the line terminator
exactly — case-sensitive and untrimmed; a `?` in a single-line
response raises a handshake failure instead of returning false.
Holds for the sync driver and for the async driver on single-line
queries. -/
theorem claim7_amended_expect (q a resp : String) (hold : Bool) (st : DACState)
    (hq : hasChar q '?' = true)
    (hnm : multiLineSet.contains (pyNormalize q) = false) :
    (hasChar resp '?' = true →
      (Telnet.expect_query_answer q a hold resp st).out = .handshakeFailure q resp) ∧
    (hasChar resp '?' = false →
      (((Telnet.expect_query_answer q a hold resp st).out = .success true) ↔
        resp = a ++ "\r\n")) ∧
    (hasChar resp '?' = false → resp ≠ a ++ "\r\n" →
      (Telnet.expect_query_answer q a hold resp st).out = .success false) ∧
    (hasChar resp '?' = true →
      (Telnet3.expect_query_answer q a hold resp st).out =
        .handshakeFailure (pyNormalize q) resp) ∧
    (hasChar resp '?' = false →
      (((Telnet3.expect_query_answer q a hold resp st).out = .success true) ↔
        resp = a ++ "\r\n")) := by
  obtain ⟨ch, t, hct⟩ := pyNormalize_toList_cons hq
  obtain ⟨ch₂, t₂, hct₂⟩ :=
    List.exists_cons_of_ne_nil (List.ne_nil_of_mem (hasChar_iff.mp hq))
  have heom : eomFor (pyNormalize q) = "\r\n" := by
    simp only [eomFor]
    rw [hnm]
    rfl
  refine ⟨?_, ?_, ?_, ?_, ?_⟩
  · intro hr
    simp only [Telnet.expect_query_answer, hq]
    rw [hct₂]
    simp [hr]
  · intro hr
    by_cases hm : resp = a ++ "\r\n"
    · subst hm
      simp only [Telnet.expect_query_answer, hq]
      rw [hct₂]
      simp [hr]
    · simp only [Telnet.expect_query_answer, hq]
      rw [hct₂]
      simp [hr, hm]
  · intro hr hm
    simp only [Telnet.expect_query_answer, hq]
    rw [hct₂]
    simp [hr, hm]
  · intro hr
    simp only [Telnet3.expect_query_answer, hq, heom]
    rw [hct]
    simp [hr]
  · intro hr
    by_cases hm : resp = a ++ "\r\n"
    · subst hm
      simp only [Telnet3.expect_query_answer, hq, heom]
      rw [hct]
      simp [hr]
    · simp only [Telnet3.expect_query_answer, hq, heom]
      rw [hct]
      simp [hr, hm]

/-- Witness for C7 (amended) at `expect_query_answer("1 s?", "OFF")`
answered `OFF\r\n`. -/
theorem claim7_amended_expect_witness :
    hasChar "1 s?" '?' = true ∧ hasChar "OFF\r\n" '?' = false ∧
    (((Telnet.expect_query_answer "1 s?" "OFF" false "OFF\r\n" ⟨false⟩).out =
      .success true) ↔ ("OFF\r\n" : String) = "OFF" ++ "\r\n") :=
  ⟨by decide, by decide,
   ((claim7_amended_expect "1 s?" "OFF" "OFF\r\n" false ⟨false⟩ (by decide)
      (by decide)).2.1 (by decide))⟩

/-! ## Claim C8 -/

/-- `_disconnect_from_DAC` leaves the flag equal to `hold` when called
on a connected driver: held connections stay connected, otherwise the
flag is cleared. -/
lemma Telnet.disconnect_fst_connected (hold : Bool) :
    (Telnet.disconnect_from_DAC hold ⟨true⟩).1.connected = hold := by
  cases hold <;> simp [Telnet.disconnect_from_DAC]

/-- `src/telnet3.py`'s `_disconnect_from_DAC`, when awaited on a
connected driver, leaves the flag equal to `hold`. -/
lemma Telnet3.disconnect_connected_async (hold : Bool) :
    (Telnet3.disconnect_from_DAC hold ⟨true⟩).1.connected = hold := by
  cases hold <;> simp [Telnet3.disconnect_from_DAC]

/-- C8 is false as stated at concrete inputs, beyond the one admitted
exception: (a) `send_command("")` in the sync driver exits (with an
`IndexError`) while the connection is still connected although
`hold_connection = false`; (b) in the async driver even a plain
successful `send_command("all off")` with `hold_connection = false`
leaves the connection connected, because the release calls on the
acknowledgement branches are coroutines that are never awaited. -/
theorem claim8_counterexample :
    (Telnet.send_command "" false "0\r\n" ⟨false⟩).out = .indexError ∧
    (Telnet.send_command "" false "0\r\n" ⟨false⟩).fin.connected = true ∧
    (Telnet3.send_command "all off" false "0\r\n" ⟨false⟩).out = .success () ∧
    (Telnet3.send_command "all off" false "0\r\n" ⟨false⟩).fin.connected = true := by
  decide

/-- C8 (amended): in the sync driver, every exit path of
`send_command` (on a non-empty command), `send_query` and
`expect_query_answer` leaves the connection state equal to the
`hold_connection` flag, with two exceptions that leave it connected
regardless of the flag: the `expect_query_answer` exit that returns
false on a plain mismatch, and the `send_command` `IndexError` exit
on an empty command.  In the async driver, `send_query` and
`expect_query_answer` behave the same way (including the mismatch
exception), but `send_command` releases only on its `InvalidUsage`
exit: its acknowledgement exits — success and handshake failure —
never release the connection, because the `_disconnect_from_DAC`
calls there are not awaited; its empty-command `IndexError` exit does
not release either. -/
theorem claim8_amended_release (cmd q a resp : String) (hold : Bool)
    (st : DACState) (hne : cmd ≠ "") :
    ((Telnet.send_command cmd hold resp st).fin.connected = hold) ∧
    ((Telnet.send_query q hold resp st).fin.connected = hold) ∧
    ((Telnet.expect_query_answer q a hold resp st).out = .success false →
      (Telnet.expect_query_answer q a hold resp st).fin.connected = true) ∧
    ((Telnet.expect_query_answer q a hold resp st).out ≠ .success false →
      (Telnet.expect_query_answer q a hold resp st).fin.connected = hold) ∧
    ((Telnet.send_command "" hold resp st).fin.connected = true) ∧
    (hasChar cmd '?' = false →
      (Telnet3.send_command cmd hold resp st).fin.connected = true) ∧
    (hasChar cmd '?' = true →
      (Telnet3.send_command cmd hold resp st).fin.connected = hold) ∧
    ((Telnet3.send_query q hold resp st).fin.connected = hold) ∧
    ((Telnet3.expect_query_answer q a hold resp st).out = .success false →
      (Telnet3.expect_query_answer q a hold resp st).fin.connected = true) ∧
    ((Telnet3.expect_query_answer q a hold resp st).out ≠ .success false →
      (Telnet3.expect_query_answer q a hold resp st).fin.connected = hold) ∧
    ((Telnet3.send_command "" hold resp st).fin.connected = true) := by
  obtain ⟨ch, t, hct⟩ := List.exists_cons_of_ne_nil (toList_ne_nil_of_ne_empty hne)
  have hz : hasChar "" '?' = false := by decide
  have hznil : ("" : String).toList = [] := rfl
  have hcmd : (Telnet.send_command cmd hold resp st).fin.connected = hold := by
    by_cases hc : hasChar cmd '?' = true
    · simp [Telnet.send_command, hc, Telnet.connect_fst_sync,
        Telnet.disconnect_fst_connected]
    · rw [Bool.not_eq_true] at hc
      simp only [Telnet.send_command, hc]
      rw [hct]
      split
      · simp_all
      · split
        · simp_all
        · split <;>
            simp [Telnet.connect_fst_sync, Telnet.disconnect_fst_connected]
  have hqry : (Telnet.send_query q hold resp st).fin.connected = hold := by
    by_cases hq : hasChar q '?' = true
    · obtain ⟨ch₂, t₂, hct₂⟩ :=
        List.exists_cons_of_ne_nil (List.ne_nil_of_mem (hasChar_iff.mp hq))
      simp only [Telnet.send_query, hq]
      rw [hct₂]
      split
      · simp_all
      · split
        · simp_all
        · split <;>
            simp [Telnet.connect_fst_sync, Telnet.disconnect_fst_connected]
    · rw [Bool.not_eq_true] at hq
      simp [Telnet.send_query, hq, Telnet.connect_fst_sync,
        Telnet.disconnect_fst_connected]
  have hexp : ((Telnet.expect_query_answer q a hold resp st).out = .success false ∧
        (Telnet.expect_query_answer q a hold resp st).fin.connected = true) ∨
      ((Telnet.expect_query_answer q a hold resp st).out ≠ .success false ∧
        (Telnet.expect_query_answer q a hold resp st).fin.connected = hold) := by
    by_cases hq : hasChar q '?' = true
    · obtain ⟨ch₂, t₂, hct₂⟩ :=
        List.exists_cons_of_ne_nil (List.ne_nil_of_mem (hasChar_iff.mp hq))
      by_cases hr : hasChar resp '?' = true
      · right
        simp only [Telnet.expect_query_answer, hq]
        rw [hct₂]
        simp [hr, Telnet.connect_fst_sync, Telnet.disconnect_fst_connected]
      · rw [Bool.not_eq_true] at hr
        by_cases hm : resp = a ++ "\r\n"
        · right
          subst hm
          simp only [Telnet.expect_query_answer, hq]
          rw [hct₂]
          simp [hr, Telnet.connect_fst_sync, Telnet.disconnect_fst_connected]
        · left
          simp only [Telnet.expect_query_answer, hq]
          rw [hct₂]
          simp [hr, hm, Telnet.connect_fst_sync]
    · right
      rw [Bool.not_eq_true] at hq
      simp [Telnet.expect_query_answer, hq, Telnet.connect_fst_sync,
        Telnet.disconnect_fst_connected]
  have hempty : (Telnet.send_command "" hold resp st).fin.connected = true := by
    simp only [Telnet.send_command, hz, hznil]
    simp [Telnet.connect_fst_sync]
  have h3ack : hasChar cmd '?' = false →
      (Telnet3.send_command cmd hold resp st).fin.connected = true := by
    intro hc
    simp only [Telnet3.send_command, hc]
    rw [hct]
    split
    · simp_all
    · split
      · simp_all
      · split <;> simp [Telnet3.connect_fst_async]
  have h3inv : hasChar cmd '?' = true →
      (Telnet3.send_command cmd hold resp st).fin.connected = hold := by
    intro hc
    simp [Telnet3.send_command, hc, Telnet3.connect_fst_async,
      Telnet3.disconnect_connected_async]
  have h3qry : (Telnet3.send_query q hold resp st).fin.connected = hold := by
    by_cases hq : hasChar q '?' = true
    · obtain ⟨ch₃, t₃, hct₃⟩ := pyNormalize_toList_cons hq
      simp only [Telnet3.send_query, hq]
      rw [hct₃]
      split
      · simp_all
      · split
        · simp_all
        · split <;>
            simp [Telnet3.connect_fst_async, Telnet3.disconnect_connected_async]
    · rw [Bool.not_eq_true] at hq
      simp [Telnet3.send_query, hq, Telnet3.connect_fst_async,
        Telnet3.disconnect_connected_async]
  have h3exp : ((Telnet3.expect_query_answer q a hold resp st).out = .success false ∧
        (Telnet3.expect_query_answer q a hold resp st).fin.connected = true) ∨
      ((Telnet3.expect_query_answer q a hold resp st).out ≠ .success false ∧
        (Telnet3.expect_query_answer q a hold resp st).fin.connected = hold) := by
    by_cases hq : hasChar q '?' = true
    · obtain ⟨ch₃, t₃, hct₃⟩ := pyNormalize_toList_cons hq
      by_cases hml : multiLineSet.contains (pyNormalize q) = true
      · have heom : eomFor (pyNormalize q) = "\r\r" := by
          simp only [eomFor]
          rw [hml]
          rfl
        right
        simp only [Telnet3.expect_query_answer, hq, heom]
        rw [hct₃]
        simp [Telnet3.connect_fst_async, Telnet3.disconnect_connected_async]
      · rw [Bool.not_eq_true] at hml
        have heom : eomFor (pyNormalize q) = "\r\n" := by
          simp only [eomFor]
          rw [hml]
          rfl
        by_cases hr : hasChar resp '?' = true
        · right
          simp only [Telnet3.expect_query_answer, hq, heom]
          rw [hct₃]
          simp [hr, Telnet3.connect_fst_async, Telnet3.disconnect_connected_async]
        · rw [Bool.not_eq_true] at hr
          by_cases hm : resp = a ++ "\r\n"
          · right
            subst hm
            simp only [Telnet3.expect_query_answer, hq, heom]
            rw [hct₃]
            simp [hr, Telnet3.connect_fst_async, Telnet3.disconnect_connected_async]
          · left
            simp only [Telnet3.expect_query_answer, hq, heom]
            rw [hct₃]
            simp [hr, hm, Telnet3.connect_fst_async]
    · right
      rw [Bool.not_eq_true] at hq
      simp [Telnet3.expect_query_answer, hq, Telnet3.connect_fst_async,
        Telnet3.disconnect_connected_async]
  have h3empty : (Telnet3.send_command "" hold resp st).fin.connected = true := by
    simp only [Telnet3.send_command, hz, hznil]
    simp [Telnet3.connect_fst_async]
  refine ⟨hcmd, hqry, ?_, ?_, hempty, h3ack, h3inv, h3qry, ?_, ?_, h3empty⟩
  · intro hf
    rcases hexp with ⟨_, h2⟩ | ⟨h1, _⟩
    · exact h2
    · exact absurd hf h1
  · intro hf
    rcases hexp with ⟨h1, _⟩ | ⟨_, h2⟩
    · exact absurd h1 hf
    · exact h2
  · intro hf
    rcases h3exp with ⟨_, h2⟩ | ⟨h1, _⟩
    · exact h2
    · exact absurd hf h1
  · intro hf
    rcases h3exp with ⟨h1, _⟩ | ⟨_, h2⟩
    · exact absurd h1 hf
    · exact h2

/-- Witness for C8 (amended): with `hold_connection = false` and a
clean acknowledgement, the sync `send_command("all off")` leaves the
driver disconnected while the async one leaves it connected. -/
theorem claim8_amended_release_witness :
    ("all off" : String) ≠ "" ∧ hasChar "all off" '?' = false ∧
    (Telnet.send_command "all off" false "0\r\n" ⟨false⟩).fin.connected = false ∧
    (Telnet3.send_command "all off" false "0\r\n" ⟨false⟩).fin.connected = true :=
  ⟨by decide, by decide,
   (claim8_amended_release "all off" "1 s?" "OFF" "0\r\n" false ⟨false⟩
      (by decide)).1,
   ((claim8_amended_release "all off" "1 s?" "OFF" "0\r\n" false ⟨false⟩
      (by decide)).2.2.2.2.2.1 (by decide))⟩

/-! ## Claim C9 -/

/-- The connection step never emits a `close` event. -/
lemma Telnet.connect_no_close (st : DACState) :
    Event.close ∉ (Telnet.connect_to_DAC st).2 := by
  obtain ⟨b⟩ := st
  cases b <;> simp [Telnet.connect_to_DAC]

/-- Trace of a validated non-empty `send_command` call: connect,
write, read, the class-dependent settling delays, then the release
step. -/
lemma Telnet.send_command_events (cmd : String) (c0 : Char) (ct : List Char)
    (hct : cmd.toList = c0 :: ct) (hnq : hasChar cmd '?' = false)
    (hold : Bool) (resp : String) (st : DACState) :
    (Telnet.send_command cmd hold resp st).events =
      (Telnet.connect_to_DAC st).2
        ++ [Event.write (cmd ++ "\r\n"), Event.readUntil "\n"]
        ++ (if c0 = 'c' ∨ c0 = 'C' then
              Event.sleepMs 200 ::
                (if strContainsSub cmd "write" = true then [Event.sleepMs 300]
                 else [])
            else [])
        ++ (Telnet.disconnect_from_DAC hold (Telnet.connect_to_DAC st).1).2 := by
  simp only [Telnet.send_command, hnq]
  rw [hct]
  split
  · simp_all
  · split
    · simp_all
    · split <;> simp_all

/-- Trace of a validated `send_query` call: connect, write, read, the
control-class delay, then the release step. -/
lemma Telnet.send_query_events (q : String) (q0 : Char) (qt : List Char)
    (hct : q.toList = q0 :: qt) (hq : hasChar q '?' = true)
    (hold : Bool) (resp : String) (st : DACState) :
    (Telnet.send_query q hold resp st).events =
      (Telnet.connect_to_DAC st).2
        ++ [Event.write (q ++ "\r\n"), Event.readUntil "\n"]
        ++ (if q0 = 'c' ∨ q0 = 'C' then [Event.sleepMs 200] else [])
        ++ (Telnet.disconnect_from_DAC hold (Telnet.connect_to_DAC st).1).2 := by
  simp only [Telnet.send_query, hq]
  rw [hct]
  split
  · simp_all
  · split
    · simp_all
    · split <;> simp_all

/-- Trace of a validated `expect_query_answer` call: connect, write,
read, the control-class delay, then the release step — which is
skipped on the plain-mismatch exit. -/
lemma Telnet.expect_query_answer_events (q a : String) (q0 : Char)
    (qt : List Char) (hct : q.toList = q0 :: qt) (hq : hasChar q '?' = true)
    (hold : Bool) (resp : String) (st : DACState) :
    (Telnet.expect_query_answer q a hold resp st).events =
      (Telnet.connect_to_DAC st).2
        ++ [Event.write (q ++ "\r\n"), Event.readUntil "\r\n"]
        ++ (if q0 = 'c' ∨ q0 = 'C' then [Event.sleepMs 200] else [])
        ++ (if hasChar resp '?' = true then
              (Telnet.disconnect_from_DAC hold (Telnet.connect_to_DAC st).1).2
            else if resp = a ++ "\r\n" then
              (Telnet.disconnect_from_DAC hold (Telnet.connect_to_DAC st).1).2
            else []) := by
  simp only [Telnet.expect_query_answer, hq]
  rw [hct]
  split
  · simp_all
  · split
    · simp_all
    · by_cases hr : hasChar resp '?' = true
      · simp_all
      · rw [Bool.not_eq_true] at hr
        by_cases hm : resp = a ++ "\r\n" <;> simp_all

/-- C9 is false as stated at a concrete input: the command `C WRITE`
is Control-class and contains "write" case-insensitively, yet the
driver sleeps only the 200 ms control delay and never the additional
300 ms — the `"write" in command` check is case-sensitive. -/
theorem claim9_counterexample :
    strContainsSub (pyLower "C WRITE") "write" = true ∧
    Event.sleepMs 200 ∈ (Telnet.send_command "C WRITE" false "0\r\n" ⟨false⟩).events ∧
    Event.sleepMs 300 ∉ (Telnet.send_command "C WRITE" false "0\r\n" ⟨false⟩).events := by
  decide

/-- C9 (amended): after every command or query whose first character
is `c` or `C`, the sync driver sleeps 200 ms before the connection is
released; after a Control-class command that contains the substring
`write` matched case-sensitively (lower case, as `"write" in command`
does), it also sleeps a further 300 ms before the release; a command
without the lower-case substring `write` never incurs the 300 ms
delay, and a non-Control command never incurs the 200 ms delay. -/
theorem claim9_amended_delays (cmd q a resp : String) (hold : Bool)
    (st : DACState) (c0 : Char) (ct : List Char) (hcmd : cmd.toList = c0 :: ct)
    (hnq : hasChar cmd '?' = false)
    (q0 : Char) (qt : List Char) (hqt : q.toList = q0 :: qt)
    (hq : hasChar q '?' = true) :
    ((c0 = 'c' ∨ c0 = 'C') →
      SleepBeforeClose 200 (Telnet.send_command cmd hold resp st).events ∧
      (strContainsSub cmd "write" = true →
        SleepBeforeClose 300 (Telnet.send_command cmd hold resp st).events)) ∧
    (strContainsSub cmd "write" = false →
      Event.sleepMs 300 ∉ (Telnet.send_command cmd hold resp st).events) ∧
    (¬(c0 = 'c' ∨ c0 = 'C') →
      Event.sleepMs 200 ∉ (Telnet.send_command cmd hold resp st).events) ∧
    ((q0 = 'c' ∨ q0 = 'C') →
      SleepBeforeClose 200 (Telnet.send_query q hold resp st).events) ∧
    ((q0 = 'c' ∨ q0 = 'C') →
      SleepBeforeClose 200 (Telnet.expect_query_answer q a hold resp st).events) := by
  obtain ⟨b⟩ := st
  refine ⟨fun hcc => ⟨?_, fun hw => ?_⟩, fun hw => ?_, fun hcc => ?_,
    fun hcc => ?_, fun hcc => ?_⟩
  · rw [Telnet.send_command_events cmd c0 ct hcmd hnq hold resp ⟨b⟩, if_pos hcc]
    refine ⟨(Telnet.connect_to_DAC ⟨b⟩).2
        ++ [Event.write (cmd ++ "\r\n"), Event.readUntil "\n"],
      (if strContainsSub cmd "write" = true then [Event.sleepMs 300] else [])
        ++ (Telnet.disconnect_from_DAC hold (Telnet.connect_to_DAC ⟨b⟩).1).2,
      by simp, ?_⟩
    simp [Telnet.connect_no_close]
  · rw [Telnet.send_command_events cmd c0 ct hcmd hnq hold resp ⟨b⟩, if_pos hcc,
      if_pos hw]
    refine ⟨(Telnet.connect_to_DAC ⟨b⟩).2
        ++ [Event.write (cmd ++ "\r\n"), Event.readUntil "\n", Event.sleepMs 200],
      (Telnet.disconnect_from_DAC hold (Telnet.connect_to_DAC ⟨b⟩).1).2,
      by simp, ?_⟩
    simp [Telnet.connect_no_close]
  · rw [Telnet.send_command_events cmd c0 ct hcmd hnq hold resp ⟨b⟩]
    simp only [hw, Bool.false_eq_true, if_false]
    cases b <;> cases hold <;> split <;>
      simp [Telnet.connect_to_DAC, Telnet.disconnect_from_DAC]
  · rw [Telnet.send_command_events cmd c0 ct hcmd hnq hold resp ⟨b⟩, if_neg hcc]
    cases b <;> cases hold <;>
      simp [Telnet.connect_to_DAC, Telnet.disconnect_from_DAC]
  · rw [Telnet.send_query_events q q0 qt hqt hq hold resp ⟨b⟩, if_pos hcc]
    refine ⟨(Telnet.connect_to_DAC ⟨b⟩).2
        ++ [Event.write (q ++ "\r\n"), Event.readUntil "\n"],
      (Telnet.disconnect_from_DAC hold (Telnet.connect_to_DAC ⟨b⟩).1).2,
      by simp, ?_⟩
    simp [Telnet.connect_no_close]
  · rw [Telnet.expect_query_answer_events q a q0 qt hqt hq hold resp ⟨b⟩,
      if_pos hcc]
    refine ⟨(Telnet.connect_to_DAC ⟨b⟩).2
        ++ [Event.write (q ++ "\r\n"), Event.readUntil "\r\n"],
      (if hasChar resp '?' = true then
          (Telnet.disconnect_from_DAC hold (Telnet.connect_to_DAC ⟨b⟩).1).2
        else if resp = a ++ "\r\n" then
          (Telnet.disconnect_from_DAC hold (Telnet.connect_to_DAC ⟨b⟩).1).2
        else []),
      by simp, ?_⟩
    simp [Telnet.connect_no_close]

/-- Witness for C9 (amended) at the Control-class write command
`c write-memory` and the Control-class query `c s?`. -/
theorem claim9_amended_delays_witness :
    strContainsSub "c write-memory" "write" = true ∧
    SleepBeforeClose 300
      (Telnet.send_command "c write-memory" false "0\r\n" ⟨false⟩).events :=
  ⟨by decide,
   ((claim9_amended_delays "c write-memory" "c s?" "OFF" "0\r\n" false ⟨false⟩
      'c' " write-memory".toList (by decide) (by decide)
      'c' " s?".toList (by decide) (by decide)).1 (Or.inl rfl)).2 (by decide)⟩
